import Mathlib

/-!
Verification of the document-composition engine in
scripts/generate-rate-limiter-docs.py: named inheritable paragraph styles,
table specifications with region-addressed styling rules, assembly of the
ordered block flow, and the literal static content of the generated report.

Pure content (table data, diagram text, style attributes) is transcribed
directly from the script.  The parts of the pipeline that the script
delegates to its external rendering library (stylesheet resolution, table
style application, materialization of the artifact, the process boundary)
are modelled from the spec, as noted on each definition.
-/

/-- Attribute values carried by paragraph styles and table style commands:
numbers (sizes, paddings, widths), strings (font names, alignments) and
colors (hex strings or named colors of the rendering library). -/
inductive StyleVal where
  | num (q : ℚ)
  | str (s : String)
  | color (c : String)
deriving DecidableEq

/-- An attribute mapping, as an association list; the first binding for a
key is the one in force. -/
abbrev AttrMap := List (String × StyleVal)

/-- A named paragraph style with an optional single parent, as passed to
ParagraphStyle(name, parent, attribute assignments) in the script. -/
structure StyleDefinition where
  name : String
  parentName : Option String
  attributes : AttrMap
deriving DecidableEq

/-- Modelled from the spec: a style with no parent resolves against a fixed
set of built-in defaults (the defaults of the external rendering library
paragraph-style class, which is not part of this repository). -/
def builtinDefaults : AttrMap :=
  [("fontName", .str "Helvetica"), ("fontSize", .num 10),
   ("leading", .num 12), ("alignment", .str "LEFT"),
   ("spaceBefore", .num 0), ("spaceAfter", .num 0),
   ("leftIndent", .num 0), ("textColor", .color "black")]

/-- Modelled from the spec: style resolution walks the single-parent chain
(registration order is the only resolution order, so a parent is always
found among the styles registered strictly earlier).  The registry is kept
most recently registered first; the attributes of a style override the
resolved attributes of its parent key by key, a parentless style merges
into the built-in defaults.  The function is total, so resolution always
terminates; it returns none when the name (or some ancestor) is missing. -/
def resolve : List StyleDefinition → String → Option AttrMap
  | [], _ => none
  | d :: rest, n =>
    if d.name = n then
      match d.parentName with
      | none => some (d.attributes ++ builtinDefaults)
      | some p =>
        match resolve rest p with
        | some base => some (d.attributes ++ base)
        | none => none
    else resolve rest n

/-- The ancestor chain of a registered style, child first, computed along
registration order exactly as resolve walks it. -/
def styleChain : List StyleDefinition → String → Option (List StyleDefinition)
  | [], _ => none
  | d :: rest, n =>
    if d.name = n then
      match d.parentName with
      | none => some [d]
      | some p => (styleChain rest p).map (d :: ·)
    else styleChain rest n

/-- Concatenation of the own attributes of a chain, child first, ending in
the built-in defaults. -/
def chainAttrs : List StyleDefinition → AttrMap
  | [] => builtinDefaults
  | d :: c => d.attributes ++ chainAttrs c

/-- Errors of style registration, from the spec error taxonomy. -/
inductive RegError where
  | duplicateStyle (n : String)
  | unknownParent (n : String)
deriving DecidableEq

/-- Modelled from the spec: registering a style fails on a duplicate name
or on a parent that is not yet registered; otherwise the style is added in
front of the registry (most recently registered first). -/
def registerStyle (reg : List StyleDefinition) (d : StyleDefinition) :
    Except RegError (List StyleDefinition) :=
  if reg.any (fun e => e.name == d.name) then .error (.duplicateStyle d.name)
  else
    match d.parentName with
    | some p =>
      if reg.any (fun e => e.name == p) then .ok (d :: reg)
      else .error (.unknownParent p)
    | none => .ok (d :: reg)

/-- Register a list of styles in order. -/
def registerAll (reg : List StyleDefinition) (ds : List StyleDefinition) :
    Except RegError (List StyleDefinition) :=
  ds.foldlM registerStyle reg

/-- A region styling rule of a table: one command of the table style, with
the command name, the inclusive start and stop cells as (column, row)
coordinates (negative coordinates count from the end, as in the script),
and the argument values of the command. -/
structure StyleRule where
  attr : String
  start : Int × Int
  stop : Int × Int
  value : List StyleVal
deriving DecidableEq

/-- Normalize a possibly negative coordinate against the table size. -/
def normIdx (i : Int) (size : Nat) : Int :=
  if i < 0 then i + size else i

/-- Whether a rule region covers the cell at (row, col), after normalizing
negative coordinates. -/
def covers (nrows ncols : Nat) (r : StyleRule) (row col : Nat) : Bool :=
  decide (normIdx r.start.1 ncols ≤ (col : Int)) &&
  decide ((col : Int) ≤ normIdx r.stop.1 ncols) &&
  decide (normIdx r.start.2 nrows ≤ (row : Int)) &&
  decide ((row : Int) ≤ normIdx r.stop.2 nrows)

/-- Per-cell attribute assignments produced by applying rules. -/
abbrev CellAttrs := List (String × List StyleVal)

/-- Modelled from the spec: rules are applied in declaration order; each
rule whose region covers the cell overwrites the binding for its command
name, on top of the table defaults.  This is the sequential application
the external table engine performs with the command list the script
declares. -/
def resolveCellStyle (nrows ncols : Nat) (rules : List StyleRule)
    (dflt : CellAttrs) (row col : Nat) : CellAttrs :=
  rules.foldl
    (fun m r => if covers nrows ncols r row col then (r.attr, r.value) :: m else m)
    dflt

/-- The last element of a list, if any. -/
def lastOf : List α → Option α
  | [] => none
  | [a] => some a
  | _ :: b :: l => lastOf (b :: l)

/-- Table construction error, from the spec error taxonomy. -/
inductive TableError where
  | tableShape
deriving DecidableEq

/-- A table specification: the cell grid, the declared column widths and
the ordered region styling rules. -/
structure TableSpec where
  rows : List (List String)
  colWidths : List ℚ
  styleRules : List StyleRule
deriving DecidableEq

/-- Modelled from the spec: constructing a table specification fails with a
table-shape error when some row cell count differs from the declared
column count; the check itself lives in the external table engine. -/
def mkTableSpec (rows : List (List String)) (colWidths : List ℚ)
    (styleRules : List StyleRule) : Except TableError TableSpec :=
  if rows.all (fun r => r.length == colWidths.length) then
    .ok ⟨rows, colWidths, styleRules⟩
  else .error .tableShape

/-- One point unit and one inch (72 points), the units of the script. -/
def inch : ℚ := 72

/-- A content block of the document flow, the closed set of flowable
variants the script appends to its story. -/
inductive Block where
  | text (content : String) (styleName : String)
  | styledText (content : String) (style : StyleDefinition)
  | preformatted (content : String) (styleName : String)
  | table (spec : TableSpec)
  | spacer (width height : ℚ)
  | pageBreak
  | image (sourceRef : String)
deriving DecidableEq

/-- A primitive flow instruction handed to the rendering collaborator. -/
inductive FlowInstr where
  | paragraph (content : String) (style : AttrMap)
  | grid (spec : TableSpec)
  | vspace (width height : ℚ)
  | pageBreak
  | imageRef (sourceRef : String)
deriving DecidableEq

/-- Assembly error: a block referenced a style name that does not resolve. -/
inductive GenError where
  | unresolvedStyle (n : String)
deriving DecidableEq

/-- Modelled from the spec: turning one block into a flow instruction;
text and preformatted blocks resolve their style name against the
registry, an inline-styled block resolves its parent name. -/
def assembleBlock (reg : List StyleDefinition) : Block → Except GenError FlowInstr
  | .text s n =>
    match resolve reg n with
    | some m => .ok (.paragraph s m)
    | none => .error (.unresolvedStyle n)
  | .preformatted s n =>
    match resolve reg n with
    | some m => .ok (.paragraph s m)
    | none => .error (.unresolvedStyle n)
  | .styledText s st =>
    match st.parentName with
    | some p =>
      match resolve reg p with
      | some base => .ok (.paragraph s (st.attributes ++ base))
      | none => .error (.unresolvedStyle p)
    | none => .ok (.paragraph s (st.attributes ++ builtinDefaults))
  | .table spec => .ok (.grid spec)
  | .spacer w h => .ok (.vspace w h)
  | .pageBreak => .ok .pageBreak
  | .image src => .ok (.imageRef src)

/-- Modelled from the spec: assembly walks the blocks in order and fails
on the first block whose style cannot be resolved. -/
def assemble (reg : List StyleDefinition) : List Block → Except GenError (List FlowInstr)
  | [] => .ok []
  | b :: bs =>
    match assembleBlock reg b with
    | .error e => .error e
    | .ok fi =>
      match assemble reg bs with
      | .error e => .error e
      | .ok fis => .ok (fi :: fis)

/-- The output path the script builds relative to its own directory. -/
def outputPath : String := "scripts/../docs/rate-limiter-documentation.pdf"

/-- Modelled from the spec: materialization is all-or-nothing — the flow is
assembled fully in memory and bytes reach the destination only after
assembly succeeds.  The state argument is the artifact currently at the
output path (none when absent); on failure it is returned unchanged. -/
def runGenerator (reg : List StyleDefinition) (blocks : List Block)
    (artifact : Option (List FlowInstr)) :
    Except GenError String × Option (List FlowInstr) :=
  match assemble reg blocks with
  | .error e => (.error e, artifact)
  | .ok flow => (.ok outputPath, some flow)

/-- Observable outcome of one process run. -/
structure ProcessOutcome where
  exitCode : Nat
  stdout : List String
deriving DecidableEq

/-- Modelled from the spec: the process boundary — the script takes no
arguments, prints the output path on success, and an uncaught error
terminates the interpreter with a non-zero exit status. -/
def scriptRun (reg : List StyleDefinition) (blocks : List Block) :
    ProcessOutcome × Option (List FlowInstr) :=
  match runGenerator reg blocks none with
  | (.ok path, art) => (⟨0, ["PDF generated: " ++ path]⟩, art)
  | (.error _, art) => (⟨1, []⟩, art)

/-- The style names a block causes to be looked up in the stylesheet at
construction time. -/
def blockStyleLookups : Block → List String
  | .text _ n => [n]
  | .preformatted _ n => [n]
  | .styledText _ st =>
    match st.parentName with
    | some p => [p]
    | none => []
  | _ => []

/-- Built-in sample style: the Normal style of the sample stylesheet.
Modelled from the spec (built-in sample styles of the external rendering
library, with its representative attribute values). -/
def styleNormalBI : StyleDefinition :=
  ⟨"Normal", none,
   [("fontName", .str "Helvetica"), ("fontSize", .num 10), ("leading", .num 12)]⟩

/-- Built-in sample style Title, modelled from the spec like Normal. -/
def styleTitleBI : StyleDefinition :=
  ⟨"Title", some "Normal",
   [("fontName", .str "Helvetica-Bold"), ("fontSize", .num 18), ("leading", .num 22),
    ("alignment", .str "CENTER"), ("spaceAfter", .num 6)]⟩

/-- Built-in sample style Heading1, modelled from the spec like Normal. -/
def styleHeading1BI : StyleDefinition :=
  ⟨"Heading1", some "Normal",
   [("fontName", .str "Helvetica-Bold"), ("fontSize", .num 18), ("leading", .num 22),
    ("spaceBefore", .num 12), ("spaceAfter", .num 6)]⟩

/-- Built-in sample style Heading2, modelled from the spec like Normal. -/
def styleHeading2BI : StyleDefinition :=
  ⟨"Heading2", some "Normal",
   [("fontName", .str "Helvetica-Bold"), ("fontSize", .num 14), ("leading", .num 18),
    ("spaceBefore", .num 12), ("spaceAfter", .num 6)]⟩

/-- Built-in sample style Code, modelled from the spec like Normal. -/
def styleCodeBI : StyleDefinition :=
  ⟨"Code", some "Normal",
   [("fontName", .str "Courier"), ("fontSize", .num 8), ("leading", .num 8.8),
    ("leftIndent", .num 36)]⟩

/-- Modelled from the spec: the sample stylesheet returned by the external
rendering library, restricted to the styles this script references; most
recently registered first. -/
def sampleStyleSheet : List StyleDefinition :=
  [styleCodeBI, styleHeading2BI, styleHeading1BI, styleTitleBI, styleNormalBI]

/-- Custom style MainTitle added by the script (parent Title). -/
def styleMainTitle : StyleDefinition :=
  ⟨"MainTitle", some "Title",
   [("fontSize", .num 28), ("spaceAfter", .num 30), ("textColor", .color "#1a1a2e")]⟩

/-- Custom style SectionTitle added by the script (parent Heading1). -/
def styleSectionTitle : StyleDefinition :=
  ⟨"SectionTitle", some "Heading1",
   [("fontSize", .num 18), ("spaceBefore", .num 20), ("spaceAfter", .num 12),
    ("textColor", .color "#16213e")]⟩

/-- Custom style SubSection added by the script (parent Heading2). -/
def styleSubSection : StyleDefinition :=
  ⟨"SubSection", some "Heading2",
   [("fontSize", .num 14), ("spaceBefore", .num 15), ("spaceAfter", .num 8),
    ("textColor", .color "#0f3460")]⟩

/-- Custom style CodeBlock added by the script (parent Code). -/
def styleCodeBlock : StyleDefinition :=
  ⟨"CodeBlock", some "Code",
   [("fontSize", .num 9), ("leftIndent", .num 20), ("backColor", .color "#f4f4f4"),
    ("borderPadding", .num 10)]⟩

/-- The four custom styles, in the registration order of the script. -/
def customStyles : List StyleDefinition :=
  [styleMainTitle, styleSectionTitle, styleSubSection, styleCodeBlock]

/-- The stylesheet after the script has registered its custom styles, most
recently registered first. -/
def docRegistry : List StyleDefinition :=
  styleCodeBlock :: styleSubSection :: styleSectionTitle :: styleMainTitle ::
    sampleStyleSheet

/-- The inline Footer style constructed (not registered) for the footer
paragraph, with parent Normal. -/
def footerStyle : StyleDefinition :=
  ⟨"Footer", some "Normal", [("fontSize", .num 8), ("textColor", .color "grey")]⟩

/-- Table-of-contents rows. -/
def toc_data : List (List String) :=
  [["1.", "Architecture Overview", "3"],
   ["2.", "Tier Configuration", "4"],
   ["3.", "Integration Guide", "5"],
   ["4.", "Security Audit Results", "6"],
   ["5.", "API Reference", "7"],
   ["6.", "Metrics & Monitoring", "8"]]

/-- Table-of-contents style commands. -/
def toc_style : List StyleRule :=
  [⟨"FONTNAME", (0, 0), (-1, -1), [.str "Helvetica"]⟩,
   ⟨"FONTSIZE", (0, 0), (-1, -1), [.num 11]⟩,
   ⟨"BOTTOMPADDING", (0, 0), (-1, -1), [.num 8]⟩,
   ⟨"ALIGN", (2, 0), (2, -1), [.str "RIGHT"]⟩]

/-- Table of contents. -/
def toc_table : TableSpec :=
  ⟨toc_data, [0.5 * inch, 4 * inch, 0.5 * inch], toc_style⟩

/-- Tier configuration rows, exactly as in the script. -/
def tier_data : List (List String) :=
  [["Tier", "Requests/Min", "Burst Capacity", "Refill Rate", "Window", "Bypass"],
   ["Free", "100", "150", "1.67/sec", "60s", "No"],
   ["Pro", "1,000", "1,500", "16.67/sec", "60s", "No"],
   ["Enterprise", "10,000", "15,000", "166.67/sec", "60s", "Yes"]]

/-- Tier table style commands. -/
def tier_style : List StyleRule :=
  [⟨"BACKGROUND", (0, 0), (-1, 0), [.color "#16213e"]⟩,
   ⟨"TEXTCOLOR", (0, 0), (-1, 0), [.color "white"]⟩,
   ⟨"ALIGN", (0, 0), (-1, -1), [.str "CENTER"]⟩,
   ⟨"FONTNAME", (0, 0), (-1, 0), [.str "Helvetica-Bold"]⟩,
   ⟨"FONTSIZE", (0, 0), (-1, -1), [.num 10]⟩,
   ⟨"BOTTOMPADDING", (0, 0), (-1, 0), [.num 12]⟩,
   ⟨"TOPPADDING", (0, 0), (-1, 0), [.num 12]⟩,
   ⟨"BACKGROUND", (0, 1), (-1, 1), [.color "#e8f4f8"]⟩,
   ⟨"BACKGROUND", (0, 2), (-1, 2), [.color "#d4edda"]⟩,
   ⟨"BACKGROUND", (0, 3), (-1, 3), [.color "#fff3cd"]⟩,
   ⟨"GRID", (0, 0), (-1, -1), [.num 1, .color "grey"]⟩,
   ⟨"BOTTOMPADDING", (0, 1), (-1, -1), [.num 8]⟩,
   ⟨"TOPPADDING", (0, 1), (-1, -1), [.num 8]⟩]

/-- Tier configuration table. -/
def tier_table : TableSpec :=
  ⟨tier_data,
   [1.1 * inch, 1.1 * inch, 1.1 * inch, 1 * inch, 0.7 * inch, 0.7 * inch],
   tier_style⟩

/-- Endpoint-specific override rows. -/
def endpoint_data : List (List String) :=
  [["Endpoint", "Free", "Pro", "Enterprise", "Cost Multiplier"],
   ["/mcp/execute", "20/min", "200/min", "2,000/min", "5x / 2x / 1x"],
   ["/api/sessions", "10/min", "100/min", "1,000/min", "10x / 5x / 1x"]]

/-- Endpoint table style commands. -/
def endpoint_style : List StyleRule :=
  [⟨"BACKGROUND", (0, 0), (-1, 0), [.color "#0f3460"]⟩,
   ⟨"TEXTCOLOR", (0, 0), (-1, 0), [.color "white"]⟩,
   ⟨"ALIGN", (0, 0), (-1, -1), [.str "CENTER"]⟩,
   ⟨"FONTNAME", (0, 0), (-1, 0), [.str "Helvetica-Bold"]⟩,
   ⟨"FONTSIZE", (0, 0), (-1, -1), [.num 9]⟩,
   ⟨"GRID", (0, 0), (-1, -1), [.num 1, .color "grey"]⟩,
   ⟨"BOTTOMPADDING", (0, 0), (-1, -1), [.num 8]⟩,
   ⟨"TOPPADDING", (0, 0), (-1, -1), [.num 8]⟩]

/-- Endpoint override table. -/
def endpoint_table : TableSpec :=
  ⟨endpoint_data,
   [1.5 * inch, 0.9 * inch, 0.9 * inch, 1 * inch, 1.3 * inch],
   endpoint_style⟩

/-- Environment variable rows. -/
def env_data : List (List String) :=
  [["Variable", "Description", "Default"],
   ["REDIS_URL", "Redis connection string", "redis://localhost:6379"],
   ["RATE_LIMIT_FAILOVER", "Failover strategy", "fail-closed"]]

/-- Environment table style commands. -/
def env_style : List StyleRule :=
  [⟨"BACKGROUND", (0, 0), (-1, 0), [.color "#16213e"]⟩,
   ⟨"TEXTCOLOR", (0, 0), (-1, 0), [.color "white"]⟩,
   ⟨"FONTNAME", (0, 0), (-1, 0), [.str "Helvetica-Bold"]⟩,
   ⟨"GRID", (0, 0), (-1, -1), [.num 1, .color "grey"]⟩,
   ⟨"BOTTOMPADDING", (0, 0), (-1, -1), [.num 8]⟩]

/-- Environment variable table. -/
def env_table : TableSpec :=
  ⟨env_data, [1.8 * inch, 2.5 * inch, 1.5 * inch], env_style⟩

/-- Response header rows. -/
def headers_data : List (List String) :=
  [["Header", "Description", "Example"],
   ["RateLimit-Limit", "Maximum requests per window", "100"],
   ["RateLimit-Remaining", "Requests remaining in window", "42"],
   ["RateLimit-Reset", "Unix timestamp when window resets", "1702814460"],
   ["Retry-After", "Seconds until next request allowed", "45"],
   ["X-RateLimit-*", "Legacy headers (backward compat)", "Same as above"]]

/-- Header table style commands. -/
def headers_style : List StyleRule :=
  [⟨"BACKGROUND", (0, 0), (-1, 0), [.color "#0f3460"]⟩,
   ⟨"TEXTCOLOR", (0, 0), (-1, 0), [.color "white"]⟩,
   ⟨"FONTNAME", (0, 0), (-1, 0), [.str "Helvetica-Bold"]⟩,
   ⟨"FONTSIZE", (0, 0), (-1, -1), [.num 9]⟩,
   ⟨"GRID", (0, 0), (-1, -1), [.num 1, .color "grey"]⟩,
   ⟨"BOTTOMPADDING", (0, 0), (-1, -1), [.num 6]⟩]

/-- Response header table. -/
def headers_table : TableSpec :=
  ⟨headers_data, [1.5 * inch, 2.5 * inch, 1.2 * inch], headers_style⟩

/-- Security audit rows, exactly as in the script. -/
def security_data : List (List String) :=
  [["Category", "Status", "Details"],
   ["API Key Handling", "SECURE", "SHA-256 hashing, no plaintext storage"],
   ["Redis Connection", "SECURE", "Supports TLS via REDIS_URL, auth included"],
   ["Input Validation", "SECURE", "All inputs sanitized, hashed before use"],
   ["DoS Protection", "SECURE", "Cache size limits, LRU eviction"],
   ["Information Disclosure", "LOW RISK", "Tier info in responses (acceptable)"],
   ["Race Conditions", "MITIGATED", "Atomic Lua scripts in Redis"],
   ["Memory Safety", "FIXED", "Added LRU eviction to tier cache"]]

/-- Security table style commands. -/
def security_style : List StyleRule :=
  [⟨"BACKGROUND", (0, 0), (-1, 0), [.color "#16213e"]⟩,
   ⟨"TEXTCOLOR", (0, 0), (-1, 0), [.color "white"]⟩,
   ⟨"FONTNAME", (0, 0), (-1, 0), [.str "Helvetica-Bold"]⟩,
   ⟨"FONTSIZE", (0, 0), (-1, -1), [.num 9]⟩,
   ⟨"GRID", (0, 0), (-1, -1), [.num 1, .color "grey"]⟩,
   ⟨"BACKGROUND", (1, 1), (1, 1), [.color "#d4edda"]⟩,
   ⟨"BACKGROUND", (1, 2), (1, 2), [.color "#d4edda"]⟩,
   ⟨"BACKGROUND", (1, 3), (1, 3), [.color "#d4edda"]⟩,
   ⟨"BACKGROUND", (1, 4), (1, 4), [.color "#d4edda"]⟩,
   ⟨"BACKGROUND", (1, 5), (1, 5), [.color "#fff3cd"]⟩,
   ⟨"BACKGROUND", (1, 6), (1, 6), [.color "#d4edda"]⟩,
   ⟨"BACKGROUND", (1, 7), (1, 7), [.color "#d4edda"]⟩,
   ⟨"BOTTOMPADDING", (0, 0), (-1, -1), [.num 8]⟩,
   ⟨"TOPPADDING", (0, 0), (-1, -1), [.num 8]⟩]

/-- Security audit table. -/
def security_table : TableSpec :=
  ⟨security_data, [1.5 * inch, 1 * inch, 3 * inch], security_style⟩

/-- API reference rows. -/
def api_data : List (List String) :=
  [["Method", "Parameters", "Returns", "Description"],
   ["initialize()", "None", "Promise<boolean>", "Connect to Redis, load Lua script"],
   ["middleware()", "None", "Express middleware", "Create rate limiting middleware"],
   ["getTier(apiKey)", "string", "Promise<string>", "Get tier for API key"],
   ["setTier(apiKey, tier)", "string, string", "Promise<boolean>", "Set tier for API key"],
   ["getMetrics()", "None", "object", "Get current metrics"],
   ["close()", "None", "Promise<void>", "Close Redis connection"]]

/-- API reference table style commands. -/
def api_style : List StyleRule :=
  [⟨"BACKGROUND", (0, 0), (-1, 0), [.color "#16213e"]⟩,
   ⟨"TEXTCOLOR", (0, 0), (-1, 0), [.color "white"]⟩,
   ⟨"FONTNAME", (0, 0), (-1, 0), [.str "Helvetica-Bold"]⟩,
   ⟨"FONTSIZE", (0, 0), (-1, -1), [.num 9]⟩,
   ⟨"GRID", (0, 0), (-1, -1), [.num 1, .color "grey"]⟩,
   ⟨"BOTTOMPADDING", (0, 0), (-1, -1), [.num 6]⟩,
   ⟨"VALIGN", (0, 0), (-1, -1), [.str "TOP"]⟩]

/-- API reference table. -/
def api_table : TableSpec :=
  ⟨api_data, [1.3 * inch, 1.2 * inch, 1.3 * inch, 2 * inch], api_style⟩

/-- Metrics rows, exactly as in the script. -/
def metrics_data : List (List String) :=
  [["Metric", "Type", "Description"],
   ["totalRequests", "Counter", "Total requests processed"],
   ["allowedRequests", "Counter", "Requests allowed through"],
   ["deniedRequests", "Counter", "Requests denied (429)"],
   ["redisErrors", "Counter", "Redis connection errors"],
   ["failoverActivations", "Counter", "Failover mode activations"],
   ["requestsByTier", "Counter", "Requests per tier (free/pro/enterprise)"],
   ["redisConnected", "Gauge", "Redis connection status"],
   ["failoverCacheSize", "Gauge", "Current failover cache size"],
   ["allowRate", "Gauge", "Percentage of allowed requests"],
   ["denyRate", "Gauge", "Percentage of denied requests"],
   ["requestsPerSecond", "Gauge", "Current request throughput"]]

/-- Metrics table style commands. -/
def metrics_style : List StyleRule :=
  [⟨"BACKGROUND", (0, 0), (-1, 0), [.color "#16213e"]⟩,
   ⟨"TEXTCOLOR", (0, 0), (-1, 0), [.color "white"]⟩,
   ⟨"FONTNAME", (0, 0), (-1, 0), [.str "Helvetica-Bold"]⟩,
   ⟨"FONTSIZE", (0, 0), (-1, -1), [.num 9]⟩,
   ⟨"GRID", (0, 0), (-1, -1), [.num 1, .color "grey"]⟩,
   ⟨"BOTTOMPADDING", (0, 0), (-1, -1), [.num 6]⟩]

/-- Metrics table. -/
def metrics_table : TableSpec :=
  ⟨metrics_data, [1.5 * inch, 0.8 * inch, 3.5 * inch], metrics_style⟩

/-- The ASCII architecture diagram embedded in the script. -/
def arch_diagram : String :=
    "\n" ++
    "    ┌─────────────────────────────────────────────────────────────────┐\n" ++
    "    │                     CLIENT REQUEST                               │\n" ++
    "    │                           │                                      │\n" ++
    "    │                           ▼                                      │\n" ++
    "    │              ┌────────────────────────┐                         │\n" ++
    "    │              │   Express Middleware    │                         │\n" ++
    "    │              │   (rateLimiter.js)      │                         │\n" ++
    "    │              └────────────────────────┘                         │\n" ++
    "    │                           │                                      │\n" ++
    "    │              ┌────────────┴────────────┐                        │\n" ++
    "    │              ▼                         ▼                         │\n" ++
    "    │   ┌──────────────────┐     ┌──────────────────┐                │\n" ++
    "    │   │  Extract API Key  │     │  Get Tier Config  │                │\n" ++
    "    │   │  (SHA-256 Hash)   │     │  (free/pro/ent)   │                │\n" ++
    "    │   └──────────────────┘     └──────────────────┘                │\n" ++
    "    │              │                         │                         │\n" ++
    "    │              └────────────┬────────────┘                        │\n" ++
    "    │                           ▼                                      │\n" ++
    "    │              ┌────────────────────────┐                         │\n" ++
    "    │              │     Redis Check         │                         │\n" ++
    "    │              │   (Lua Token Bucket)    │◄──────┐                │\n" ++
    "    │              └────────────────────────┘       │                 │\n" ++
    "    │                      │    │                    │                 │\n" ++
    "    │           Connected? │    │ Disconnected       │                 │\n" ++
    "    │                      ▼    ▼                    │                 │\n" ++
    "    │   ┌──────────────────┐  ┌──────────────────┐  │                 │\n" ++
    "    │   │   Redis Cluster   │  │  Failover Cache  │  │                 │\n" ++
    "    │   │  (Atomic Lua Ops) │  │  (Local Memory)  │  │                 │\n" ++
    "    │   └──────────────────┘  └──────────────────┘  │                 │\n" ++
    "    │              │                   │             │                 │\n" ++
    "    │              └─────────┬─────────┘             │                 │\n" ++
    "    │                        ▼                       │                 │\n" ++
    "    │              ┌────────────────────────┐       │                 │\n" ++
    "    │              │   Rate Limit Decision   │───────┘                │\n" ++
    "    │              │   (Allow / Deny)        │                         │\n" ++
    "    │              └────────────────────────┘                         │\n" ++
    "    │                        │                                         │\n" ++
    "    │           ┌────────────┴────────────┐                           │\n" ++
    "    │           ▼                         ▼                            │\n" ++
    "    │   ┌──────────────┐         ┌──────────────────┐                 │\n" ++
    "    │   │   200 OK      │         │   429 Too Many   │                 │\n" ++
    "    │   │ + RateLimit   │         │   + Retry-After  │                 │\n" ++
    "    │   │   Headers     │         │   + Error JSON   │                 │\n" ++
    "    │   └──────────────┘         └──────────────────┘                 │\n" ++
    "    └─────────────────────────────────────────────────────────────────┘\n" ++
    "    "

/-- The integration quick-start code sample embedded in the script. -/
def integration_code : String :=
    "\n" ++
    "// 1. Import the rate limiter integration module\n" ++
    "import \x7b\n" ++
    "  initializeRateLimiter,\n" ++
    "  getRateLimiterMiddleware,\n" ++
    "  getRateLimiterMetrics\n" ++
    "\x7d from \x27./middleware/rateLimiterIntegration.js\x27;\n" ++
    "\n" ++
    "// 2. Initialize during application startup\n" ++
    "await initializeRateLimiter();\n" ++
    "\n" ++
    "// 3. Apply middleware to protected routes\n" ++
    "app.use(\x27/mcp/\x27, getRateLimiterMiddleware());\n" ++
    "app.use(\x27/api/\x27, getRateLimiterMiddleware());\n" ++
    "\n" ++
    "// 4. Add metrics endpoint\n" ++
    "app.get(\x27/api/rate-limit/metrics\x27, (req, res) => \x7b\n" ++
    "  res.json(getRateLimiterMetrics());\n" ++
    "\x7d);\n" ++
    "\n" ++
    "// 5. Graceful shutdown\n" ++
    "process.on(\x27SIGTERM\x27, async () => \x7b\n" ++
    "  await closeRateLimiter();\n" ++
    "  process.exit(0);\n" ++
    "\x7d);\n" ++
    ""

/-- The example error response payload embedded in the script. -/
def error_json : String :=
    "\n" ++
    "\x7b\n" ++
    "  \"error\": \x7b\n" ++
    "    \"code\": \"RATE_LIMIT_EXCEEDED\",\n" ++
    "    \"message\": \"Rate limit exceeded. You have made too many requests.\",\n" ++
    "    \"type\": \"https://api.example.com/errors/rate-limit-exceeded\"\n" ++
    "  \x7d,\n" ++
    "  \"rateLimit\": \x7b\n" ++
    "    \"limit\": 100,\n" ++
    "    \"remaining\": 0,\n" ++
    "    \"reset\": 1702814460,\n" ++
    "    \"retryAfter\": 45,\n" ++
    "    \"tier\": \"free\"\n" ++
    "  \x7d,\n" ++
    "  \"requestId\": \"req_1702814415_abc123\",\n" ++
    "  \"timestamp\": \"2025-12-16T22:20:15.000Z\",\n" ++
    "  \"help\": \x7b\n" ++
    "    \"message\": \"Please wait 45 seconds before making another request.\",\n" ++
    "    \"documentationUrl\": \"https://docs.api.example.com/rate-limits\"\n" ++
    "  \x7d\n" ++
    "\x7d\n" ++
    ""


/-- Architecture overview paragraph (adjacent string literals joined). -/
def archOverviewText : String :=
  "The rate limiter implements a distributed token bucket algorithm using Redis " ++
  "for state management. It supports per-API-key rate limiting with tiered configurations " ++
  "and graceful failover to local memory when Redis is unavailable."

/-- Tier section introduction paragraph. -/
def tierIntroText : String :=
  "The rate limiter supports three tiers with configurable limits. Each tier uses " ++
  "the token bucket algorithm with different refill rates and burst capacities."

/-- Security section introduction paragraph. -/
def securityIntroText : String :=
  "A comprehensive security audit was performed on the rate limiter implementation. " ++
  "The following areas were analyzed:"

/-- Metrics section introduction paragraph. -/
def metricsIntroText : String :=
  "The rate limiter exposes Prometheus-ready metrics for monitoring. " ++
  "Access metrics via the /api/rate-limit/metrics endpoint."

/-- The horizontal rule of the footer: sixty box-drawing characters. -/
def footerRuleText : String := String.mk (List.replicate 60 '━')

set_option maxHeartbeats 2000000 in
/-- The full story of the script, in append order: the only two blocks that
depend on the run time are the cover timestamp paragraph (index 7, from
the first datetime.now() call) and the footer paragraph (index 70, from
the second datetime.now() call). -/
def story (ts date : String) : List Block :=
  [.spacer 1 (2 * inch),
   .text "Redis Rate Limiter" "MainTitle",
   .text "Production Documentation" "Heading2",
   .spacer 1 (0.5 * inch),
   .text "Token Bucket Algorithm with Distributed State" "Normal",
   .spacer 1 inch,
   .text "Version 1.0.0" "Normal",
   .text ("Generated: " ++ ts) "Normal",
   .text "Jules MCP Server - Antigravity Orchestration" "Normal",
   .pageBreak,
   .text "Table of Contents" "SectionTitle",
   .table toc_table,
   .pageBreak,
   .text "1. Architecture Overview" "SectionTitle",
   .text "System Architecture" "SubSection",
   .text archOverviewText "Normal",
   .spacer 1 (0.3 * inch),
   .text "Architecture Diagram" "SubSection",
   .preformatted arch_diagram "Code",
   .pageBreak,
   .text "2. Tier Configuration" "SectionTitle",
   .text tierIntroText "Normal",
   .spacer 1 (0.2 * inch),
   .table tier_table,
   .spacer 1 (0.3 * inch),
   .text "Endpoint-Specific Overrides" "SubSection",
   .table endpoint_table,
   .pageBreak,
   .text "3. Integration Guide" "SectionTitle",
   .text "Quick Start" "SubSection",
   .preformatted integration_code "Code",
   .spacer 1 (0.2 * inch),
   .text "Environment Variables" "SubSection",
   .table env_table,
   .spacer 1 (0.2 * inch),
   .text "Response Headers" "SubSection",
   .table headers_table,
   .pageBreak,
   .text "4. Security Audit Results" "SectionTitle",
   .text securityIntroText "Normal",
   .spacer 1 (0.2 * inch),
   .table security_table,
   .spacer 1 (0.3 * inch),
   .text "Vulnerabilities Checked" "SubSection",
   .text "✓ SQL Injection - N/A (no SQL queries)" "Normal",
   .text "✓ XSS - N/A (JSON-only responses)" "Normal",
   .text "✓ CSRF - N/A (API key authentication)" "Normal",
   .text "✓ Timing Attacks - Mitigated by key hashing" "Normal",
   .text "✓ Denial of Service - Protected by rate limiting itself" "Normal",
   .text "✓ Redis Injection - Prevented by parameterized Lua scripts" "Normal",
   .pageBreak,
   .text "5. API Reference" "SectionTitle",
   .text "RedisRateLimiter Class" "SubSection",
   .table api_table,
   .spacer 1 (0.3 * inch),
   .text "Error Response Format" "SubSection",
   .preformatted error_json "Code",
   .pageBreak,
   .text "6. Metrics & Monitoring" "SectionTitle",
   .text metricsIntroText "Normal",
   .spacer 1 (0.2 * inch),
   .table metrics_table,
   .spacer 1 (0.3 * inch),
   .text "Recommended Alerts" "SubSection",
   .text "<b>High Deny Rate</b> (> 10%): Indicates potential abuse or misconfigured limits" "Normal",
   .text "<b>Redis Disconnected</b> (redisConnected = false): Rate limiter in failover mode" "Normal",
   .text "<b>High Failover Cache</b> (> 5000 entries): Memory pressure during Redis outage" "Normal",
   .text "<b>Error Rate Spike</b> (> 5 errors/min): Redis connection issues" "Normal",
   .spacer 1 (0.5 * inch),
   .text footerRuleText "Normal",
   .styledText
     ("Generated by Claude Code on " ++ date ++
      " | Jules MCP Server v2.4.0 | Antigravity Orchestration")
     footerStyle]

/-- C5 counterexample: the tier table data rows do not carry the literal
cell texts the claim states; the refill-rate cells of the script read
1.67/sec, 16.67/sec and 166.67/sec, in slash notation. -/
theorem tier_rows_claim_literal_false :
    tier_data.drop 1 ≠
      [["Free", "100", "150", "1.67 per sec", "60s", "No"],
       ["Pro", "1,000", "1,500", "16.67 per sec", "60s", "No"],
       ["Enterprise", "10,000", "15,000", "166.67 per sec", "60s", "Yes"]] := by
  decide

/-- C5 (amended): the generated tier-configuration table, appended to the
story at index 23, contains exactly three data rows with exactly the cells
Free 100 150 1.67/sec 60s No, Pro 1,000 1,500 16.67/sec 60s No and
Enterprise 10,000 15,000 166.67/sec 60s Yes. -/
theorem tier_table_exact_rows :
    (∀ ts date : String, (story ts date).get? 23 = some (Block.table tier_table)) ∧
    tier_table.rows.drop 1 =
      [["Free", "100", "150", "1.67/sec", "60s", "No"],
       ["Pro", "1,000", "1,500", "16.67/sec", "60s", "No"],
       ["Enterprise", "10,000", "15,000", "166.67/sec", "60s", "Yes"]] ∧
    (tier_table.rows.drop 1).length = 3 :=
  ⟨fun _ _ => rfl, rfl, rfl⟩

/-- C6: the generated security-audit table, appended to the story at index
41, contains exactly seven category rows, and the status cell of every one
of them is SECURE, LOW RISK, MITIGATED or FIXED. -/
theorem security_table_seven_rows_status :
    (∀ ts date : String, (story ts date).get? 41 = some (Block.table security_table)) ∧
    (security_table.rows.drop 1).length = 7 ∧
    ((security_table.rows.drop 1).all fun row =>
        ["SECURE", "LOW RISK", "MITIGATED", "FIXED"].contains (row.getD 1 "")) = true :=
  ⟨fun _ _ => rfl, rfl, by decide⟩

/-- C7: the generated metrics table, appended to the story at index 61,
lists exactly eleven distinct named metrics, among them totalRequests of
type Counter, redisConnected of type Gauge and requestsPerSecond of type
Gauge. -/
theorem metrics_table_eleven_metrics :
    (∀ ts date : String, (story ts date).get? 61 = some (Block.table metrics_table)) ∧
    (metrics_data.drop 1).length = 11 ∧
    ((metrics_data.drop 1).map fun r => r.getD 0 "").Nodup ∧
    ["totalRequests", "Counter", "Total requests processed"] ∈ metrics_data ∧
    ["redisConnected", "Gauge", "Redis connection status"] ∈ metrics_data ∧
    ["requestsPerSecond", "Gauge", "Current request throughput"] ∈ metrics_data :=
  ⟨fun _ _ => rfl, rfl, by decide, by decide, by decide, by decide⟩

/-- Recursion step of lastOf on a list with at least two elements. -/
theorem lastOf_cons_cons (a b : α) (l : List α) :
    lastOf (a :: b :: l) = lastOf (b :: l) := rfl

/-- lastOf returns none exactly on the empty list. -/
theorem lastOf_eq_none_iff : ∀ (l : List α), lastOf l = none ↔ l = []
  | [] => by simp [lastOf]
  | [a] => by simp [lastOf]
  | a :: b :: l => by
    rw [lastOf_cons_cons]
    simp [lastOf_eq_none_iff (b :: l)]

/-- C2: for every table geometry, rule list, table default, cell position
and command name, the per-cell resolved binding for that command is the
value of the last declared rule whose region covers the cell, whatever the
sizes of the regions involved, and stays at the table default when no
covering rule carries that command. -/
theorem last_covering_rule_wins (nrows ncols : Nat) (rules : List StyleRule)
    (dflt : CellAttrs) (row col : Nat) (a : String) :
    List.lookup a (resolveCellStyle nrows ncols rules dflt row col) =
      match lastOf (rules.filter fun r => r.attr == a && covers nrows ncols r row col) with
      | some r => some r.value
      | none => List.lookup a dflt := by
  induction rules generalizing dflt with
  | nil => rfl
  | cons r rest ih =>
    simp only [resolveCellStyle, List.foldl_cons] at ih ⊢
    by_cases hc : covers nrows ncols r row col = true
    · by_cases ha : (r.attr == a) = true
      · have hae : r.attr = a := by simpa using ha
        subst hae
        have hp : (r.attr == r.attr && covers nrows ncols r row col) = true := by
          simp [hc]
        rw [if_pos hc, List.filter_cons, if_pos hp, ih]
        rcases hfil : rest.filter
            (fun s => s.attr == r.attr && covers nrows ncols s row col)
          with _ | ⟨x, xs⟩
        · rw [hfil]
          simp [lastOf, List.lookup]
        · rw [hfil, lastOf_cons_cons]
          rcases hlx : lastOf (x :: xs) with _ | lx
          · exact absurd ((lastOf_eq_none_iff _).mp hlx) (List.cons_ne_nil x xs)
          · rfl
      · have hane : (a == r.attr) = false := by
          rcases h : a == r.attr with _ | _
          · rfl
          · exact absurd (beq_iff_eq.mpr ((beq_iff_eq.mp h).symm)) ha
        have hp : (r.attr == a && covers nrows ncols r row col) = false := by
          simp [Bool.eq_false_iff.mpr ha]
        have hskip : List.lookup a ((r.attr, r.value) :: dflt) = List.lookup a dflt := by
          simp [List.lookup, hane]
        rw [if_pos hc, List.filter_cons, if_neg (by simp [hp]), ih, hskip]
    · have hp : (r.attr == a && covers nrows ncols r row col) = false := by
        simp [Bool.eq_false_iff.mpr hc]
      rw [if_neg hc, List.filter_cons, if_neg (by simp [hp]), ih]

/-- Lookup distributes over append of association lists: the left list is
consulted first. -/
theorem lookup_append {β : Type} (a : String) (l1 l2 : List (String × β)) :
    List.lookup a (l1 ++ l2) =
      match List.lookup a l1 with
      | some v => some v
      | none => List.lookup a l2 := by
  induction l1 with
  | nil => rfl
  | cons kv l1 ih =>
    rcases kv with ⟨k, v⟩
    simp only [List.cons_append, List.lookup]
    cases a == k
    · exact ih
    · rfl

/-- Resolution computes exactly the concatenated own attributes of the
chain, child first, over the built-in defaults. -/
theorem resolve_eq_chainAttrs :
    ∀ (reg : List StyleDefinition) (n : String) (c : List StyleDefinition),
      styleChain reg n = some c → resolve reg n = some (chainAttrs c) := by
  intro reg
  induction reg with
  | nil => intro n c h; exact absurd h (by simp [styleChain])
  | cons d rest ih =>
    intro n c h
    simp only [styleChain] at h
    simp only [resolve]
    by_cases hd : d.name = n
    · rw [if_pos hd] at h ⊢
      cases hp : d.parentName with
      | none =>
        rw [hp] at h
        obtain rfl : c = [d] := (Option.some_inj.mp h).symm
        rfl
      | some p =>
        rw [hp] at h
        replace h : (styleChain rest p).map (d :: ·) = some c := h
        rcases hsc : styleChain rest p with _ | c2
        · rw [hsc] at h; exact absurd h (by simp)
        · rw [hsc] at h
          simp only [Option.map_some'] at h
          obtain rfl : c = d :: c2 := (Option.some_inj.mp h).symm
          show (match resolve rest p with
                | some base => some (d.attributes ++ base)
                | none => none) = some (chainAttrs (d :: c2))
          rw [ih p c2 hsc]
          rfl
    · rw [if_neg hd] at h ⊢
      exact ih n c h

/-- Lookup in the concatenated chain attributes: an attribute defined at
some level of the chain is bound in the merged mapping, and the binding in
force comes from the childmost level that defines it. -/
theorem chainAttrs_lookup (a : String) :
    ∀ (c : List StyleDefinition) (i : Fin c.length),
      (List.lookup a (c.get i).attributes).isSome = true →
      ∃ j : Fin c.length, j.val ≤ i.val ∧
        List.lookup a (chainAttrs c) = List.lookup a (c.get j).attributes ∧
        (List.lookup a (c.get j).attributes).isSome = true ∧
        ∀ j' : Fin c.length, j'.val < j.val →
          List.lookup a (c.get j').attributes = none := by
  intro c
  induction c with
  | nil => intro i; exact absurd i.isLt (by simp)
  | cons d c ih =>
    intro i hi
    by_cases hd : (List.lookup a d.attributes).isSome = true
    · obtain ⟨v, hv⟩ := Option.isSome_iff_exists.mp hd
      refine ⟨⟨0, by simp⟩, by simp, ?_, hd, ?_⟩
      · show List.lookup a (d.attributes ++ chainAttrs c) = List.lookup a d.attributes
        rw [lookup_append, hv]
      · intro j' hj'
        exact absurd hj' (Nat.not_lt_zero _)
    · have hnone : List.lookup a d.attributes = none :=
        Option.not_isSome_iff_eq_none.mp (by simpa using hd)
      rcases i with ⟨iv, hlt⟩
      cases iv with
      | zero => exact absurd hi (by simp [hnone])
      | succ iv =>
        have hlt2 : iv < c.length := by
          simp [Nat.succ_lt_succ_iff] at hlt
          exact hlt
        obtain ⟨j, hle, hlook, hsome, hmin⟩ := ih ⟨iv, hlt2⟩ (by simpa using hi)
        refine ⟨⟨j.val + 1, by have := j.isLt; simp only [List.length_cons]; omega⟩,
          by simpa [Nat.succ_le_succ_iff] using hle, ?_, by simpa using hsome, ?_⟩
        · show List.lookup a (d.attributes ++ chainAttrs c) = _
          rw [lookup_append, hnone]
          simpa using hlook
        · intro j' hj'
          rcases j' with ⟨jv, hjlt⟩
          cases jv with
          | zero => simpa using hnone
          | succ jv =>
            have hjlt2 : jv < c.length := by
              simpa [Nat.succ_lt_succ_iff] using hjlt
            have h3 : jv + 1 < j.val + 1 := by simpa using hj'
            have h4 : jv < j.val := by omega
            simpa using hmin ⟨jv, hjlt2⟩ h4

/-- C1: for every registered style name whose parent chain exists (along
registration order no cycle can be followed), resolution terminates and
returns a mapping that binds every attribute defined anywhere in the
chain; the binding in force for an attribute comes from the childmost
level of the chain that defines it, so a child level takes precedence
over every ancestor level for the same key. -/
theorem style_resolution_follows_parent_chain
    (reg : List StyleDefinition) (n : String) (c : List StyleDefinition)
    (hchain : styleChain reg n = some c) :
    ∃ m, resolve reg n = some m ∧
      ∀ (a : String) (i : Fin c.length),
        (List.lookup a (c.get i).attributes).isSome = true →
        ∃ j : Fin c.length, j.val ≤ i.val ∧
          List.lookup a m = List.lookup a (c.get j).attributes ∧
          (List.lookup a (c.get j).attributes).isSome = true ∧
          ∀ j' : Fin c.length, j'.val < j.val →
            List.lookup a (c.get j').attributes = none :=
  ⟨chainAttrs c, resolve_eq_chainAttrs reg n c hchain,
   fun a i hi => chainAttrs_lookup a c i hi⟩

/-- Witness for C1 at a concrete input: the MainTitle style of the script
resolves along the chain MainTitle, Title, Normal. -/
theorem style_resolution_follows_parent_chain_witness :
    styleChain docRegistry "MainTitle" =
      some [styleMainTitle, styleTitleBI, styleNormalBI] ∧
    (∃ m, resolve docRegistry "MainTitle" = some m ∧
      ∀ (a : String) (i : Fin ([styleMainTitle, styleTitleBI, styleNormalBI].length)),
        (List.lookup a (([styleMainTitle, styleTitleBI, styleNormalBI].get i)).attributes).isSome = true →
        ∃ j : Fin ([styleMainTitle, styleTitleBI, styleNormalBI].length), j.val ≤ i.val ∧
          List.lookup a m = List.lookup a (([styleMainTitle, styleTitleBI, styleNormalBI].get j)).attributes ∧
          (List.lookup a (([styleMainTitle, styleTitleBI, styleNormalBI].get j)).attributes).isSome = true ∧
          ∀ j' : Fin ([styleMainTitle, styleTitleBI, styleNormalBI].length), j'.val < j.val →
            List.lookup a (([styleMainTitle, styleTitleBI, styleNormalBI].get j')).attributes = none) :=
  ⟨rfl, style_resolution_follows_parent_chain docRegistry "MainTitle"
    [styleMainTitle, styleTitleBI, styleNormalBI] rfl⟩

/-- Every assembly error is a style-resolution error: the only failing
branch of block assembly is an unresolvable style name. -/
theorem assemble_error_is_style_error (reg : List StyleDefinition) :
    ∀ (blocks : List Block) (s n : String),
      Block.text s n ∈ blocks → resolve reg n = none →
      ∃ n', assemble reg blocks = .error (.unresolvedStyle n') := by
  intro blocks
  induction blocks with
  | nil => intro s n hmem; exact absurd hmem (List.not_mem_nil _)
  | cons b bs ih =>
    intro s n hmem hn
    rcases List.mem_cons.mp hmem with hb | hb
    · subst hb
      refine ⟨n, ?_⟩
      simp only [assemble, assembleBlock, hn]
    · rcases hab : assembleBlock reg b with e | fi
      · rcases e with ⟨n'⟩
        refine ⟨n', ?_⟩
        simp only [assemble, hab]
      · obtain ⟨n', hrec⟩ := ih s n hb hn
        refine ⟨n', ?_⟩
        simp only [assemble, hab, hrec]

/-- C3: when some text block of the document references a style name that
does not resolve against the registry, the whole run fails with a
style-resolution error and the artifact at the destination path is
exactly what it was before the run: absent if absent, unchanged
otherwise. -/
theorem unresolved_style_fails_without_output
    (reg : List StyleDefinition) (blocks : List Block)
    (artifact0 : Option (List FlowInstr)) (s n : String)
    (hmem : Block.text s n ∈ blocks) (hn : resolve reg n = none) :
    ∃ n', runGenerator reg blocks artifact0 =
      (.error (.unresolvedStyle n'), artifact0) := by
  obtain ⟨n', herr⟩ := assemble_error_is_style_error reg blocks s n hmem hn
  exact ⟨n', by simp only [runGenerator, herr]⟩

/-- Witness for C3 at a concrete input: a one-block document whose text
block references the unregistered name Ghost fails and leaves an absent
artifact absent. -/
theorem unresolved_style_fails_without_output_witness :
    Block.text "hello" "Ghost" ∈ [Block.text "hello" "Ghost"] ∧
    resolve docRegistry "Ghost" = none ∧
    (∃ n', runGenerator docRegistry [Block.text "hello" "Ghost"] none =
      (.error (.unresolvedStyle n'), none)) :=
  ⟨List.mem_singleton.mpr rfl, rfl,
   unresolved_style_fails_without_output docRegistry [Block.text "hello" "Ghost"]
     none "hello" "Ghost" (List.mem_singleton.mpr rfl) rfl⟩

/-- C4: constructing a table specification from rows of unequal cell
counts always fails with the table-shape error, and constructing one from
rectangular rows whose cell count matches the number of declared column
widths always succeeds. -/
theorem tableSpec_rectangularity (rows : List (List String)) (cw : List ℚ)
    (rules : List StyleRule) :
    ((∃ r1, r1 ∈ rows ∧ ∃ r2, r2 ∈ rows ∧ r1.length ≠ r2.length) →
        mkTableSpec rows cw rules = .error .tableShape) ∧
    ((∀ r ∈ rows, r.length = cw.length) →
        mkTableSpec rows cw rules = .ok ⟨rows, cw, rules⟩) := by
  constructor
  · rintro ⟨r1, hr1, r2, hr2, hne⟩
    rw [mkTableSpec, if_neg]
    intro hall
    rw [List.all_eq_true] at hall
    have h1 := hall r1 hr1
    have h2 := hall r2 hr2
    rw [beq_iff_eq] at h1 h2
    exact hne (h1.trans h2.symm)
  · intro hall
    rw [mkTableSpec, if_pos]
    rw [List.all_eq_true]
    intro r hr
    rw [beq_iff_eq]
    exact hall r hr

/-- Witness for C4 at concrete inputs: a ragged two-row grid is rejected,
and the tier table of the script is accepted against its six declared
column widths. -/
theorem tableSpec_rectangularity_witness :
    (∃ r1, r1 ∈ [["a"], ["b", "c"]] ∧ ∃ r2, r2 ∈ [["a"], ["b", "c"]] ∧
        r1.length ≠ r2.length) ∧
    mkTableSpec [["a"], ["b", "c"]] [1] [] = .error .tableShape ∧
    (∀ r ∈ tier_data, r.length = tier_table.colWidths.length) ∧
    mkTableSpec tier_data tier_table.colWidths tier_style =
      .ok ⟨tier_data, tier_table.colWidths, tier_style⟩ :=
  ⟨⟨["a"], by decide, ["b", "c"], by decide, by decide⟩,
   (tableSpec_rectangularity [["a"], ["b", "c"]] [1] []).1
     ⟨["a"], by decide, ["b", "c"], by decide, by decide⟩,
   by decide,
   (tableSpec_rectangularity tier_data tier_table.colWidths tier_style).2
     (by decide)⟩

/-- C9: the generator takes no arguments beyond the content it owns; when
assembly succeeds the process prints the resolved output path and exits
with status zero, and when any fatal error occurs the process exits with
a non-zero status instead of continuing silently. -/
theorem process_exit_behavior (reg : List StyleDefinition) (blocks : List Block) :
    (∀ flow, assemble reg blocks = .ok flow →
        (scriptRun reg blocks).1.exitCode = 0 ∧
        (scriptRun reg blocks).1.stdout = ["PDF generated: " ++ outputPath]) ∧
    (∀ e, assemble reg blocks = .error e → (scriptRun reg blocks).1.exitCode ≠ 0) := by
  constructor
  · intro flow h
    simp [scriptRun, runGenerator, h]
  · intro e h
    simp [scriptRun, runGenerator, h]

/-- Witness for C9 at concrete inputs: the empty flow assembles and exits
with status zero printing the output path; a flow with an unresolvable
style name exits with a non-zero status. -/
theorem process_exit_behavior_witness :
    (assemble docRegistry [] = .ok [] ∧
      (scriptRun docRegistry []).1.exitCode = 0 ∧
      (scriptRun docRegistry []).1.stdout = ["PDF generated: " ++ outputPath]) ∧
    (assemble docRegistry [Block.text "x" "Ghost"] =
        .error (.unresolvedStyle "Ghost") ∧
      (scriptRun docRegistry [Block.text "x" "Ghost"]).1.exitCode ≠ 0) :=
  ⟨⟨rfl, (process_exit_behavior docRegistry []).1 [] rfl⟩,
   ⟨rfl, (process_exit_behavior docRegistry [Block.text "x" "Ghost"]).2
      (.unresolvedStyle "Ghost") rfl⟩⟩

/-- C10: the registration sequence of the script succeeds (each custom
style finds its parent among the styles registered before it and the four
custom styles are in place before the first block is appended), every
style name the generator looks up while constructing flow elements
resolves in the final stylesheet, and for every run time the assembly of
the full story succeeds, so the missing-style branch is unreachable for
the actual static content. -/
theorem all_story_styles_registered :
    registerAll sampleStyleSheet customStyles = .ok docRegistry ∧
    (["Title", "Heading1", "Heading2", "Normal", "Code", "MainTitle",
        "SectionTitle", "SubSection", "CodeBlock"].all
      fun n => (resolve docRegistry n).isSome) = true ∧
    (∀ ts date : String,
      (((story ts date).map blockStyleLookups).flatten.all
        fun n => (resolve docRegistry n).isSome) = true) ∧
    (∀ ts date : String, (assemble docRegistry (story ts date)).isOk = true) :=
  ⟨rfl, by decide, fun _ _ => rfl, fun _ _ => rfl⟩

set_option maxHeartbeats 2000000 in
/-- C8: with the rendering collaborator a function of the flow, two runs
differ only in the generation-timestamp content: every story position
other than index 7 (the cover timestamp paragraph) and index 70 (the
footer paragraph carrying the generation date) is identical across runs
with unchanged domain content, and those two positions carry exactly the
timestamp-bearing paragraphs. -/
theorem story_differs_only_at_timestamps (a1 a2 b1 b2 : String) :
    (∀ k : Nat, k ≠ 7 → k ≠ 70 →
        (story a1 a2).get? k = (story b1 b2).get? k) ∧
    (story a1 a2).get? 7 = some (Block.text ("Generated: " ++ a1) "Normal") ∧
    (story a1 a2).get? 70 = some (Block.styledText
      ("Generated by Claude Code on " ++ a2 ++
        " | Jules MCP Server v2.4.0 | Antigravity Orchestration") footerStyle) := by
  refine ⟨?_, rfl, rfl⟩
  intro k h7 h70
  by_cases hk : k < 71
  · interval_cases k
    all_goals first
      | rfl
      | exact absurd rfl h7
      | exact absurd rfl h70
  · have hlen1 : (story a1 a2).length = 71 := rfl
    have hlen2 : (story b1 b2).length = 71 := rfl
    rw [List.get?_eq_none.mpr (by rw [hlen1]; omega),
        List.get?_eq_none.mpr (by rw [hlen2]; omega)]

/-- Witness for C8 at concrete run times: position 0 of the story is
identical across two runs on different days. -/
theorem story_differs_only_at_timestamps_witness :
    (story "2025-01-01 10:00" "2025-01-01").get? 0 =
      (story "2025-01-02 11:30" "2025-01-02").get? 0 :=
  (story_differs_only_at_timestamps "2025-01-01 10:00" "2025-01-01"
      "2025-01-02 11:30" "2025-01-02").1 0 (by decide) (by decide)
